import Mathlib

/-!
Verification development for the qbittorrent-manager daemon.

Each Python source function named in the claims is shallowly embedded as an
executable Lean definition.  Filesystem paths appear either abstractly (as
lists of path components, so that `os.path.commonpath` of two absolute paths
becomes the longest common component prefix) or as abstract world records
capturing the exact observations the code makes (existence, verification
results, streaming status, ...).  Machine integers in the source are plain
Python ints, so `Nat`/`Int` model them exactly; no overflow is involved.
-/
namespace QbitManager

/-! ## classes.py: BTIH validation (`BTIH.__new__`, classes.py:29-50) -/
/-- The `[a-fA-F0-9]` character class used by `_VALID_BTIH_*_PATTERN`. -/
def isHexChar (c : Char) : Bool :=
  ('0' ≤ c && c ≤ '9') || ('a' ≤ c && c ≤ 'f') || ('A' ≤ c && c ≤ 'F')

/-- Matching `re.fullmatch` of `^[a-fA-F0-9]{n}$` on a string already known to have
length `n` is exactly "every character is hex". -/
def allHex (s : List Char) : Bool := s.all isHexChar

/-- Embedding of `BTIH.__new__` (classes.py:29-50) restricted to string inputs: dispatches
on the length, applies the corresponding hex pattern, and raises `ValueError`
otherwise.  `Except` models the raise. -/
def btihNew (s : List Char) : Except String (List Char) :=
  if s.length = 32 then
    if allHex s then .ok s else .error "32-character BTIH must be hex"
  else if s.length = 40 then
    if allHex s then .ok s else .error "40-character BTIH must be hex"
  else if s.length = 64 then
    if allHex s then .ok s else .error "64-character BTIH must be hex"
  else .error "BTIH must be 32, 40, or 64 characters long"

/-- The shape every accepted infohash must have per the spec. -/
def btihValid (s : List Char) : Bool :=
  (s.length = 32 || s.length = 40 || s.length = 64) && allHex s

/-! ## util.py: `get_dir_stats` (util.py:85-98) and `verify_copy` (util.py:129-169)

A filesystem node is a regular file with a size, a symlink (sizes of symlinks
are skipped by `get_dir_stats` and `os.walk` does not follow them), or a
directory with an inode size (what `os.path.getsize` reports for a directory
path) and children.  `verify_copy` receives resolved paths; a nonexistent
path is `none`. -/
inductive FsNode where
  | file (size : Nat)
  | link
  | dir (inodeSize : Nat) (children : List FsNode)

/-- Value of `os.path.getsize` on an existing, resolved path (never called on a
dangling link by the code paths modelled here). -/
def getsize : FsNode → Nat
  | .file s => s
  | .link => 0
  | .dir isz _ => isz

/-- Contribution of a directory's children to `get_dir_stats`'s running
`(total_size, item_count)`: every child (file, link, or directory) counts as
one item, file sizes are added unless the entry is a symlink, and real
subdirectories are walked recursively (`os.walk` with default
`followlinks=False`). -/
def dirStatsChildren : List FsNode → Nat × Nat
  | [] => (0, 0)
  | .file s :: rest =>
      let r := dirStatsChildren rest
      (s + r.1, 1 + r.2)
  | .link :: rest =>
      let r := dirStatsChildren rest
      (r.1, 1 + r.2)
  | .dir _ cs :: rest =>
      let c := dirStatsChildren cs
      let r := dirStatsChildren rest
      (c.1 + r.1, 1 + c.2 + r.2)

/-- Embedding of `get_dir_stats` (util.py:85-98): `(0, 0)` when the path is not a
directory, otherwise the walk starting from `item_count = 1`. -/
def get_dir_stats : FsNode → Nat × Nat
  | .dir _ cs =>
      let r := dirStatsChildren cs
      (r.1, 1 + r.2)
  | _ => (0, 0)

/-- Embedding of `verify_copy` (util.py:129-169).  `none` arguments model missing paths
(the `os.path.exists` guards).  Python's `src_size >= 0` checks are
vacuously true over `Nat` and kept as `0 ≤ _` decidings. -/
def verify_copy (src dst : Option FsNode) (isMulti : Bool) : Bool :=
  match src, dst with
  | some s, some d =>
      if !isMulti then
        getsize s == getsize d && decide (0 ≤ getsize s)
      else
        let ss := get_dir_stats s
        let ds := get_dir_stats d
        (ss.1 == ds.1 && ss.2 == ds.2 && decide (0 < ss.2) && decide (0 ≤ ss.1))
          || (ss.1 == 0 && ds.1 == 0 && ss.2 == ds.2)
  | _, _ => false

/-! ## classes.py: `TorrentInfo` (classes.py:88-265)

Only the fields the claims touch are given structure; strings other than the
two hashes stay abstract `String`s.  `to_dict`/`from_dict` mirror
classes.py:219-265; `from_dict` re-validates hashes through `BTIH`, so it can
raise. -/
structure TorrentData where
  hashV1 : List Char
  name : String
  contentPath : String
  savePath : String
  rootPath : String
  size : Int
  numFiles : Int
  category : String
  tags : String
  currentTracker : String
  hashV2 : Option (List Char)
  torrentId : String
deriving Repr, DecidableEq

/-- The hash-only descriptor `from_hash_only` builds: empty strings, size 0,
`num_files = 1`. -/
def hashOnlyTorrent (h : List Char) : TorrentData :=
  { hashV1 := h, name := "", contentPath := "", savePath := "", rootPath := ""
    size := 0, numFiles := 1, category := "", tags := "", currentTracker := ""
    hashV2 := none, torrentId := "" }

/-- Embedding of `TorrentInfo.from_hash_only` (classes.py:198-217): `BTIH(torrent_hash)`
may raise, the other fields default. -/
def fromHashOnly (h : List Char) : Except String TorrentData :=
  match btihNew h with
  | .error e => .error e
  | .ok h => .ok (hashOnlyTorrent h)

/-- Serialized form produced by `TorrentInfo.to_dict` (classes.py:219-239);
`hash_v2` is `None` in the JSON when absent. -/
structure TorrentDictData where
  hash_v1 : List Char
  name : String
  content_path : String
  save_path : String
  root_path : String
  size : Int
  num_files : Int
  category : String
  tags : String
  current_tracker : String
  hash_v2 : Option (List Char)
  torrent_id : String
deriving Repr, DecidableEq

/-- Embedding of `TorrentInfo.to_dict` (classes.py:219-239). -/
def torrentToDict (t : TorrentData) : TorrentDictData :=
  { hash_v1 := t.hashV1, name := t.name, content_path := t.contentPath
    save_path := t.savePath, root_path := t.rootPath, size := t.size
    num_files := t.numFiles, category := t.category, tags := t.tags
    current_tracker := t.currentTracker
    hash_v2 := t.hashV2    -- `str(self.hash_v2) if self.hash_v2 else None`
    torrent_id := t.torrentId }

/-- Embedding of `TorrentInfo.from_dict` (classes.py:241-265): `BTIH(data['hash_v1'])`
re-validates and can raise; `hash_v2` is only parsed when truthy (non-`None`
and non-empty). -/
def torrentFromDict (d : TorrentDictData) : Except String TorrentData :=
  match btihNew d.hash_v1 with
  | .error e => .error e
  | .ok h1 =>
      match (match d.hash_v2 with
             | none => Except.ok none
             | some h =>
                 if h = [] then Except.ok none
                 else match btihNew h with
                      | .error e => .error e
                      | .ok h' => .ok (some h')) with
      | .error e => .error e
      | .ok h2 =>
          .ok { hashV1 := h1, name := d.name, contentPath := d.content_path
                savePath := d.save_path, rootPath := d.root_path, size := d.size
                numFiles := d.num_files, category := d.category, tags := d.tags
                currentTracker := d.current_tracker, hashV2 := h2
                torrentId := d.torrent_id }

/-! ## Python's stable `list.sort`

`self.process_queue.sort(key=lambda x: (-x.priority, x.queued_time))`
(service.py:115, persistence.py:235) is a stable sort.  Any stable sort
computes the same list, so it is embedded as a stable insertion sort:
an element is inserted after every element strictly below it and before the
first element at-or-above it, which keeps equal-key elements in their
original relative order exactly as CPython's timsort does. -/
def insertBy (lt : α → α → Bool) (x : α) : List α → List α
  | [] => [x]
  | y :: ys => if lt y x then y :: insertBy lt x ys else x :: y :: ys

def sortBy (lt : α → α → Bool) : List α → List α
  | [] => []
  | a :: l => insertBy lt a (sortBy lt l)

/-! ## classes.py: `QueueItem` (classes.py:76-82) and the queue order -/
structure QItem where
  id : String
  torrent : TorrentData
  queuedTime : Nat
  priority : Int
deriving Repr, DecidableEq

/-- Strict order on the sort key `(-priority, queued_time)` of service.py:115:
`key a < key b`. -/
def keyLt (a b : QItem) : Bool :=
  (b.priority < a.priority) || (b.priority == a.priority && a.queuedTime < b.queuedTime)

/-- Reflexive order on the same key. -/
def keyLe (a b : QItem) : Bool :=
  (b.priority < a.priority) || (b.priority == a.priority && a.queuedTime ≤ b.queuedTime)

/-- The queue sort performed by `add_to_queue` and
`restore_orchestrator_state`. -/
def pySort (l : List QItem) : List QItem := sortBy keyLt l

/-- Exact-key selector used to state stability. -/
def sameKey (p : Int) (t : Nat) (x : QItem) : Bool :=
  x.priority == p && x.queuedTime == t

/-! ## service.py: `QbitManagerOrchestrator` (service.py:49-561)

The orchestrator's shared state and the lock-guarded operations on it.  All
operations run under one reentrant lock, so each HTTP command or completion
callback is one atomic step of a state machine; worker bodies (disk I/O,
qBittorrent calls) happen between steps and only re-enter through the
completion callbacks.  `uuid.uuid4()` fresh ids are modelled by a counter
rendered to a string. -/
inductive RStatus where
  | running
  | completed
  | failed
deriving Repr, DecidableEq

/-- Embedding of `ProcessInfo` (classes.py:65-74); `result` is reduced to the success bit
the orchestrator reads, `none` standing for "no result yet / exception". -/
structure PRec where
  id : String
  torrentHash : List Char
  startTime : Nat
  status : RStatus
  success : Option Bool
deriving Repr, DecidableEq

/-- A running copy-operation entry (the dict built in
`_start_copy_operation`, service.py:260-270). -/
structure CRec where
  id : String
  batchId : String
  startTime : Nat
  status : RStatus
  success : Option Bool
deriving Repr, DecidableEq

/-- A `copy_queue` entry after `add_copy_operations` stamps it
(service.py:235-239). -/
structure CItem where
  id : String
  batchId : String
  queuedTime : Nat
deriving Repr, DecidableEq

/-- The statistics map `self.stats` (service.py:69-77). -/
structure Stats where
  serviceStartTime : Nat
  torrentsProcessed : Nat
  spaceManagementRuns : Nat
  apiRequests : Nat
  lastActivity : Nat
  copyOperationsCompleted : Nat
  copyOperationsFailed : Nat
deriving Repr, DecidableEq

structure OState where
  runningProcesses : List PRec
  processQueue : List QItem
  runningCopyOperations : List CRec
  copyQueue : List CItem
  shutdownInProgress : Bool
  stats : Stats
  nextId : Nat
deriving Repr, DecidableEq

def initStats (t0 : Nat) : Stats :=
  { serviceStartTime := t0, torrentsProcessed := 0, spaceManagementRuns := 0
    apiRequests := 0, lastActivity := t0, copyOperationsCompleted := 0
    copyOperationsFailed := 0 }

def initOState (t0 : Nat) : OState :=
  { runningProcesses := [], processQueue := [], runningCopyOperations := []
    copyQueue := [], shutdownInProgress := false, stats := initStats t0, nextId := 0 }

/-- The `while` loop of `_process_queue` (service.py:121-128): pop the head
and submit while `len(self.running_processes) < MAX_CONCURRENT_PROCESSES`.
Note the gate counts every record in the `running_processes` dict, including
the retained COMPLETED/FAILED ones.  Returns the new record map, the
remaining queue and the next fresh id. -/
def dispatchLoop (maxP t : Nat) : List QItem → List PRec → Nat →
    List PRec × List QItem × Nat
  | [], running, n => (running, [], n)
  | i :: rest, running, n =>
      if running.length < maxP then
        dispatchLoop maxP t rest
          (running ++ [{ id := toString n, torrentHash := i.torrent.hashV1
                         startTime := t, status := .running, success := none }])
          (n + 1)
      else (running, i :: rest, n)

/-- Embedding of `add_to_queue` (service.py:90-119): reject during shutdown, build the
descriptor (`from_hash_only` when no params — its `BTIH` call can raise),
append, stable-sort by `(-priority, queued_time)`, dispatch, return the
queue id. -/
def addToQueue (maxP t : Nat) (hash : List Char) (params : Option TorrentData)
    (priority : Int) (s : OState) : Except String (String × OState) :=
  if s.shutdownInProgress then .error "Service is shutting down"
  else
    match (match params with
           | some p => Except.ok p
           | none => fromHashOnly hash) with
    | .error e => .error e
    | .ok torrent =>
        let qid := toString s.nextId
        let item : QItem :=
          { id := qid, torrent := torrent, queuedTime := t, priority := priority }
        let d := dispatchLoop maxP t (pySort (s.processQueue ++ [item]))
                   s.runningProcesses (s.nextId + 1)
        .ok (qid, { s with runningProcesses := d.1, processQueue := d.2.1, nextId := d.2.2 })

/-- Ascending sort by `start_time` used when trimming
(`sorted(completed_processes, key=lambda x: x.start_time)`). -/
def startLt (a b : PRec) : Bool := a.startTime < b.startTime

/-- The cleanup in `_on_process_complete` (service.py:195-201): keep only the
last 10 non-running records, deleting the oldest from the map
(`sorted(completed_processes, key=lambda x: x.start_time)[:-10]` is the
ascending-sorted prefix of all but the newest 10). -/
def trimProcesses (recs : List PRec) : List PRec :=
  trimWith recs (recs.filter (fun r => r.status != .running))
where
  trimWith (recs completed : List PRec) : List PRec :=
    if completed.length > 10 then
      recs.filter (fun r =>
        !(((sortBy startLt completed).take (completed.length - 10)).any
            (fun o => o.id == r.id)))
    else recs

/-- Embedding of `_on_process_complete` (service.py:171-205): mark the record, bump
counters, trim, dispatch again, touch `last_activity`. -/
def onProcessComplete (maxP t : Nat) (pid : String) (result : Option Bool)
    (s : OState) : OState :=
  if s.runningProcesses.all (fun r => r.id != pid) then s
  else
    let recs := s.runningProcesses.map (fun r =>
      if r.id == pid then
        { r with status := if result = some true then .completed else .failed
                 success := result }
      else r)
    let stats := if result = some true
                 then { s.stats with torrentsProcessed := s.stats.torrentsProcessed + 1 }
                 else s.stats
    let d := dispatchLoop maxP t s.processQueue (trimProcesses recs) s.nextId
    { s with runningProcesses := d.1, processQueue := d.2.1, nextId := d.2.2
             stats := { stats with lastActivity := t } }

/-- The `while` loop of `_process_copy_queue` (service.py:245-253), gated on
`len(self.running_copy_operations) < MAX_CONCURRENT_COPY_OPERATIONS`, again
counting retained non-running records. -/
def dispatchCopyLoop (maxC t : Nat) : List CItem → List CRec →
    List CRec × List CItem
  | [], running => (running, [])
  | i :: rest, running =>
      if running.length < maxC then
        dispatchCopyLoop maxC t rest
          (running ++ [{ id := i.id, batchId := i.batchId, startTime := t
                         status := .running, success := none }])
      else (running, i :: rest)

/-- Embedding of `add_copy_operations` (service.py:226-243): reject during shutdown,
stamp a fresh batch id and per-op ids, append, dispatch; returns the batch
id. -/
def addCopyOperations (maxC t : Nat) (count : Nat) (s : OState) :
    Except String (String × OState) :=
  if s.shutdownInProgress then .error "Service is shutting down"
  else
    let batchId := toString s.nextId
    let newItems := (List.range count).map
      (fun k => ({ id := toString (s.nextId + 1 + k), batchId := batchId
                   queuedTime := t } : CItem))
    let d := dispatchCopyLoop maxC t (s.copyQueue ++ newItems) s.runningCopyOperations
    .ok (batchId, { s with runningCopyOperations := d.1, copyQueue := d.2
                           nextId := s.nextId + 1 + count })

def startCLt (a b : CRec) : Bool := a.startTime < b.startTime

/-- The cleanup in `_on_copy_complete` (service.py:380-386): keep the last 20
non-running copy records. -/
def trimCopies (recs : List CRec) : List CRec :=
  trimCWith recs (recs.filter (fun r => r.status != .running))
where
  trimCWith (recs completed : List CRec) : List CRec :=
    if completed.length > 20 then
      recs.filter (fun r =>
        !(((sortBy startCLt completed).take (completed.length - 20)).any
            (fun o => o.id == r.id)))
    else recs

/-- Embedding of `_on_copy_complete` (service.py:350-390). -/
def onCopyComplete (maxC t : Nat) (cid : String) (result : Option Bool)
    (s : OState) : OState :=
  if s.runningCopyOperations.all (fun r => r.id != cid) then s
  else
    let recs := s.runningCopyOperations.map (fun r =>
      if r.id == cid then
        { r with status := if result = some true then .completed else .failed
                 success := result }
      else r)
    let stats := if result = some true
                 then { s.stats with copyOperationsCompleted := s.stats.copyOperationsCompleted + 1 }
                 else { s.stats with copyOperationsFailed := s.stats.copyOperationsFailed + 1 }
    let d := dispatchCopyLoop maxC t s.copyQueue (trimCopies recs)
    { s with runningCopyOperations := d.1, copyQueue := d.2
             stats := { stats with lastActivity := t } }

/-- Embedding of `clear_queue` (service.py:464-470): count, clear, return the count. -/
def clearQueue (s : OState) : Nat × OState :=
  (s.processQueue.length, { s with processQueue := [] })

/-- The start of `shutdown` (service.py:476-477): set the flag that makes
`add_to_queue`/`add_copy_operations` refuse new work. -/
def beginShutdown (s : OState) : OState := { s with shutdownInProgress := true }

/-- External stimuli of the orchestrator: HTTP commands and pool completion
callbacks.  A `complete`/`copyComplete` with an id that is not a RUNNING
record's id is a no-op, as in the callbacks. -/
inductive Event where
  | notify (t : Nat) (hash : List Char) (params : Option TorrentData) (priority : Int)
  | complete (t : Nat) (pid : String) (result : Option Bool)
  | addCopies (t : Nat) (count : Nat)
  | copyComplete (t : Nat) (cid : String) (result : Option Bool)
  | clear
  | shutdown

def applyEvent (maxP maxC : Nat) (s : OState) : Event → OState
  | .notify t h params prio =>
      match addToQueue maxP t h params prio s with
      | .ok (_, s') => s'
      | .error _ => s
  | .complete t pid result => onProcessComplete maxP t pid result s
  | .addCopies t count =>
      match addCopyOperations maxC t count s with
      | .ok (_, s') => s'
      | .error _ => s
  | .copyComplete t cid result => onCopyComplete maxC t cid result s
  | .clear => (clearQueue s).2
  | .shutdown => beginShutdown s

/-- The orchestrator state after a sequence of events from startup. -/
def runEvents (maxP maxC : Nat) (evs : List Event) : OState :=
  evs.foldl (applyEvent maxP maxC) (initOState 0)

/-- Records currently in RUNNING state (the claim's "running ... records"). -/
def runningCount (s : OState) : Nat :=
  (s.runningProcesses.filter (fun r => r.status == .running)).length

def runningCopyCount (s : OState) : Nat :=
  (s.runningCopyOperations.filter (fun r => r.status == .running)).length

/-! ## service.py: the `/queue/clear` request path

`auth_middleware` (service.py:570-584) increments
`orchestrator.stats['api_requests']` on every authenticated request before
invoking the handler; `clear_queue_endpoint` (service.py:647-657) then calls
`orchestrator.clear_queue`. -/
structure ClearQueueHttpResult where
  status : Nat
  clearedCount : Option Nat
  state : OState
deriving Repr, DecidableEq

def clearQueueRequest (keyOk : Bool) (s : OState) : ClearQueueHttpResult :=
  if !keyOk then { status := 401, clearedCount := none, state := s }
  else
    let s1 := { s with stats := { s.stats with apiRequests := s.stats.apiRequests + 1 } }
    let (n, s2) := clearQueue s1
    { status := 200, clearedCount := some n, state := s2 }

/-! ## Paths for the deletion safety check

Paths are lists of components of a normalized absolute path.
`os.path.realpath` is applied by the code before the check, so the worlds
below carry the already-resolved paths.  For two normalized absolute paths,
`os.path.commonpath([p, root]) == root` holds exactly when `root` is a
component prefix of `p` (equality of the two paths included). -/
def pathWithin (p root : List String) : Bool := root.isPrefixOf p

/-- Strictly inside: a proper descendant of the root. -/
def strictlyInside (p root : List String) : Bool := root.isPrefixOf p && p ≠ root

/-! ## symlink_utils.py: link discovery (symlink_utils.py:230-379)

One record per path the `find` invocation enumerates under the library
roots, carrying the observations the discovery code makes about it. -/
structure LibEntry where
  path : String
  isLink : Bool
  /-- the normalized `readlink` target lies under the cache path
  (`_is_path_within_directory`, symlink_utils.py:466-487). -/
  linkTargetUnderSsd : Bool
  isFile : Bool
  /-- `st_nlink > 1` and some file under the bulk path shares `(st_dev,
  st_ino)` (`_is_hardlink_to_hdd_path`, symlink_utils.py:489-537). -/
  hardlinkToHdd : Bool
deriving Repr, DecidableEq

/-- Embedding of `find_links_to_ssd_path` (symlink_utils.py:230-308): symlinks whose
target is under the cache path, and regular files that are hardlinks to the
bulk copy.  A path is tested as a hardlink only in the `elif
os.path.isfile` branch, i.e. only when it is not a symlink. -/
def find_links_to_ssd_path (entries : List LibEntry) :
    List LibEntry × List LibEntry :=
  (entries.filter (fun e => e.isLink && e.linkTargetUnderSsd),
   entries.filter (fun e => !e.isLink && e.isFile && e.hardlinkToHdd))

/-- Embedding of `find_symlinks_to_ssd_path` (symlink_utils.py:310-379), the deprecated
symlink-only discovery used as fallback. -/
def find_symlinks_to_ssd_path (entries : List LibEntry) : List LibEntry :=
  entries.filter (fun e => e.isLink && e.linkTargetUnderSsd)

/-! ## core.py: `relocate_and_delete_ssd` (core.py:117-255)

The world record holds one field per observation or fallible effect of the
run, in program order.  `realpath` never raises, and on the normalized
absolute paths used here `commonpath` does not either, so the
`except FileNotFoundError` arm of the safety check (core.py:209-211), which
skips the delete, is dead and not modelled. -/
structure PlainWorld where
  dryRun : Bool
  /-- `get_torrent_by_hash` finds the torrent (core.py:134-137). -/
  torrentFound : Bool
  /-- the torrent state is in the active list (core.py:141). -/
  torrentActive : Bool
  /-- `torrents_pause`/`torrents_set_location` raise (caught at core.py:247). -/
  pauseOrMoveRaises : Bool
  /-- `os.path.exists(expected_hdd_path)` (core.py:160). -/
  destExists : Bool
  /-- the copy at core.py:167-176 raises `shutil.Error`/`OSError`. -/
  copyRaises : Bool
  /-- result of `verify_copy(torrent_info.path, expected_hdd_path, ...)`. -/
  verifySD : Bool
  /-- `normpath(realpath(torrent_info.path))` as components. -/
  realSrc : List String
  /-- `normpath(realpath(download_path_ssd))` as components. -/
  realRoot : List String
  /-- `os.path.exists(torrent_info.path)` at delete time (core.py:219). -/
  srcExists : Bool
  /-- `shutil.rmtree`/`os.remove` raises `OSError` (core.py:230). -/
  deleteRaises : Bool
  /-- `torrents_resume` raises (caught at core.py:247). -/
  resumeRaises : Bool
deriving Repr, DecidableEq

structure RelocOutcome where
  success : Bool
  /-- an `rmtree`/`remove` call on the cache copy was issued. -/
  deleted : Bool
deriving Repr, DecidableEq

/-- Steps 5-8 of the plain protocol: safety check (core.py:199-214), delete
(core.py:217-232), retag, resume (core.py:239-243). -/
def plainDeletePhase (w : PlainWorld) : RelocOutcome :=
  if !(pathWithin w.realSrc w.realRoot) then { success := false, deleted := false }
  else if w.srcExists then
    if w.deleteRaises then { success := false, deleted := true }
    else if w.torrentActive && w.resumeRaises then { success := false, deleted := true }
    else { success := true, deleted := true }
  else if w.torrentActive && w.resumeRaises then { success := false, deleted := false }
  else { success := true, deleted := false }

def relocate_and_delete_ssd (w : PlainWorld) : RelocOutcome :=
  if w.dryRun then { success := true, deleted := false }
  else if !w.torrentFound then { success := false, deleted := false }
  else if w.pauseOrMoveRaises then { success := false, deleted := false }
  else if !w.destExists then
    if w.copyRaises then { success := false, deleted := false }
    else if !w.verifySD then { success := false, deleted := false }
    else plainDeletePhase w
  else
    -- core.py:194-195: a pre-existing destination is only `os.path.exists`-
    -- checked, never verified, before proceeding to the delete.
    plainDeletePhase w

/-! ## core.py: `relocate_and_delete_ssd_import_script_mode` (core.py:565-758) -/
inductive Reason where
  | success
  | streaming
  | noSymlinks
  | noLinks
  | noHddCopy
  | noConfig
  | error
  | disabled
deriving Repr, DecidableEq

structure ImportWorld where
  /-- Tautulli reports a file under the cache data path as playing
  (core.py:594-605). -/
  streaming : Bool
  /-- `SONARR_ROOT_FOLDERS ++ RADARR_ROOT_FOLDERS` (core.py:610-618). -/
  rootFolders : List String
  /-- what link discovery over those roots observes. -/
  entries : List LibEntry
  /-- `os.path.exists(expected_hdd_path)` (core.py:657). -/
  destExists : Bool
  /-- `verify_copy(torrent_info.path, expected_hdd_path, ...)` (core.py:664). -/
  verifySD : Bool
  /-- `replace_symlinks_with_hardlinks` returned 0 (core.py:682). -/
  replaceAllFail : Bool
  /-- the step-5 block raises: torrent lookup, pause or set-location
  (core.py:692-715). -/
  setLocationRaises : Bool
  realSrc : List String
  realRoot : List String
  srcExists : Bool
  deleteRaises : Bool
  torrentActive : Bool
  /-- `torrents_resume` at core.py:751 raises (caught at core.py:756). -/
  resumeRaises : Bool
deriving Repr, DecidableEq

structure ImportOutcome where
  ok : Bool
  reason : Reason
  deleted : Bool
deriving Repr, DecidableEq

def relocate_and_delete_ssd_import_script_mode (enabled : Bool) (w : ImportWorld) :
    ImportOutcome :=
  if !enabled then { ok := false, reason := .disabled, deleted := false }
  else if w.streaming then { ok := false, reason := .streaming, deleted := false }
  else if w.rootFolders.isEmpty then { ok := false, reason := .noConfig, deleted := false }
  else
    -- core.py:624-634: `find_links_to_ssd_path(torrent_info.path,
    -- expected_hdd_path, all_root_folders)` reads the local
    -- `expected_hdd_path` before its assignment at core.py:655, so the call
    -- raises UnboundLocalError; the `except Exception` at core.py:629 then
    -- always runs the fallback, so `symlinks_to_replace` is the fallback's
    -- symlink list and `existing_hardlinks = []` below.
    if (find_symlinks_to_ssd_path w.entries).length + ([] : List LibEntry).length == 0 then
      { ok := false, reason := .noLinks, deleted := false }
    else if !w.destExists then { ok := false, reason := .noHddCopy, deleted := false }
    else if !w.verifySD then { ok := false, reason := .noHddCopy, deleted := false }
    else if !(find_symlinks_to_ssd_path w.entries).isEmpty && w.replaceAllFail then
      { ok := false, reason := .error, deleted := false }
    else if w.setLocationRaises then { ok := false, reason := .error, deleted := false }
    else if !(pathWithin w.realSrc w.realRoot) then
      { ok := false, reason := .error, deleted := false }
    else if w.srcExists then
      if w.deleteRaises then { ok := false, reason := .error, deleted := true }
      else if w.torrentActive && w.resumeRaises then
        -- the resume at core.py:751 raises after the delete; the outer
        -- `except Exception` (core.py:756) returns (False, "error").
        { ok := false, reason := .error, deleted := true }
      else { ok := true, reason := .success, deleted := true }
    else if w.torrentActive && w.resumeRaises then
      { ok := false, reason := .error, deleted := false }
    else { ok := true, reason := .success, deleted := false }

/-! ## core.py: the relocation loop of `manage_ssd_space` (core.py:524-559) -/
structure Candidate where
  hash : String
  sizeGb : Nat
  importW : ImportWorld
  plainW : PlainWorld
deriving Repr, DecidableEq

inductive PassStep where
  | relocatedImport (hash : String)
  | skipped (hash : String) (r : Reason)
  | relocatedPlain (hash : String)
  | stopped (hash : String)
deriving Repr, DecidableEq

/-- The literal skip list of core.py:540. -/
def skipReasons : List Reason := [.streaming, .noSymlinks, .noLinks, .noHddCopy, .noConfig]

/-- The per-candidate loop of `manage_ssd_space` (core.py:524-559);
candidates arrive already sorted oldest-first, `need` is
`space_needed` and the accumulator is `space_freed_gb`. -/
def manage_ssd_space_loop (importEnabled : Bool) (need : Nat) :
    Nat → List Candidate → List PassStep
  | _, [] => []
  | freed, c :: rest =>
      if need ≤ freed then []
      else if importEnabled then
        let r := relocate_and_delete_ssd_import_script_mode true c.importW
        if r.ok then
          .relocatedImport c.hash :: manage_ssd_space_loop importEnabled need (freed + c.sizeGb) rest
        else if skipReasons.contains r.reason then
          .skipped c.hash r.reason :: manage_ssd_space_loop importEnabled need freed rest
        else if (relocate_and_delete_ssd c.plainW).success then
          .relocatedPlain c.hash :: manage_ssd_space_loop importEnabled need (freed + c.sizeGb) rest
        else [.stopped c.hash]
      else if (relocate_and_delete_ssd c.plainW).success then
        .relocatedPlain c.hash :: manage_ssd_space_loop importEnabled need (freed + c.sizeGb) rest
      else [.stopped c.hash]

/-- The pass as the claim states it: a skip-reason
(`streaming | no_links | no_hdd_copy | no_config`) moves to the next
candidate without the plain relocator, exactly reason `error` falls back to
the plain relocator, and a plain-relocator failure stops the whole pass. -/
def managePassSpec (need : Nat) : Nat → List Candidate → List PassStep
  | _, [] => []
  | freed, c :: rest =>
      if need ≤ freed then []
      else
        let r := relocate_and_delete_ssd_import_script_mode true c.importW
        if r.ok then
          .relocatedImport c.hash :: managePassSpec need (freed + c.sizeGb) rest
        else if r.reason == .error then
          if (relocate_and_delete_ssd c.plainW).success then
            .relocatedPlain c.hash :: managePassSpec need (freed + c.sizeGb) rest
          else [.stopped c.hash]
        else .skipped c.hash r.reason :: managePassSpec need freed rest

/-- The decision tree of `relocate_and_delete_ssd` with every observed
Boolean abstracted; `relocate_and_delete_ssd` is definitionally an instance
of it (`plain_eq_branches`), which lets branch-exhaustive facts be settled
by `decide`. -/
def plainBranches (dryRun found pmRaises destEx copyRaises verifyOk
    within srcEx delRaises act res : Bool) : RelocOutcome :=
  if dryRun then { success := true, deleted := false }
  else if !found then { success := false, deleted := false }
  else if pmRaises then { success := false, deleted := false }
  else if !destEx then
    if copyRaises then { success := false, deleted := false }
    else if !verifyOk then { success := false, deleted := false }
    else plainDeleteBranches within srcEx delRaises act res
  else plainDeleteBranches within srcEx delRaises act res
where
  plainDeleteBranches (within srcEx delRaises act res : Bool) : RelocOutcome :=
    if !within then { success := false, deleted := false }
    else if srcEx then
      if delRaises then { success := false, deleted := true }
      else if act && res then { success := false, deleted := true }
      else { success := true, deleted := true }
    else if act && res then { success := false, deleted := false }
    else { success := true, deleted := false }

/-- The decision tree of `relocate_and_delete_ssd_import_script_mode` with
every observed Boolean abstracted; the relocator is definitionally an
instance of it (`import_eq_branches`). -/
def importBranches (enabled streaming rfEmpty linksZero destEx verifyOk
    symsEmpty replFail setLocRaises within srcEx delRaises act res : Bool) :
    ImportOutcome :=
  if !enabled then { ok := false, reason := .disabled, deleted := false }
  else if streaming then { ok := false, reason := .streaming, deleted := false }
  else if rfEmpty then { ok := false, reason := .noConfig, deleted := false }
  else if linksZero then { ok := false, reason := .noLinks, deleted := false }
  else if !destEx then { ok := false, reason := .noHddCopy, deleted := false }
  else if !verifyOk then { ok := false, reason := .noHddCopy, deleted := false }
  else if !symsEmpty && replFail then { ok := false, reason := .error, deleted := false }
  else if setLocRaises then { ok := false, reason := .error, deleted := false }
  else if !within then { ok := false, reason := .error, deleted := false }
  else if srcEx then
    if delRaises then { ok := false, reason := .error, deleted := true }
    else if act && res then { ok := false, reason := .error, deleted := true }
    else { ok := true, reason := .success, deleted := true }
  else if act && res then { ok := false, reason := .error, deleted := false }
  else { ok := true, reason := .success, deleted := false }

/-- A plain relocation run in which the bulk destination pre-exists but does
not verify against the cache source, and the cache source resolves to the
cache root itself (so it is inside but not strictly inside). -/
def plainCounterWorld : PlainWorld :=
  { dryRun := false, torrentFound := true, torrentActive := false
    pauseOrMoveRaises := false, destExists := true, copyRaises := false
    verifySD := false, realSrc := ["data", "ssd"], realRoot := ["data", "ssd"]
    srcExists := true, deleteRaises := false, resumeRaises := false }

/-- A plain relocation run that deletes with every guard of the amended
safety statement genuinely satisfied. -/
def plainOkWorld : PlainWorld :=
  { dryRun := false, torrentFound := true, torrentActive := false
    pauseOrMoveRaises := false, destExists := true, copyRaises := false
    verifySD := true, realSrc := ["data", "ssd", "t1"], realRoot := ["data", "ssd"]
    srcExists := true, deleteRaises := false, resumeRaises := false }

/-- A stream-aware relocation run that deletes: one media-library symlink
into the cache path, a verified bulk copy, and a source strictly inside the
cache root. -/
def importOkWorld : ImportWorld :=
  { streaming := false, rootFolders := ["/media/tv"]
    entries := [{ path := "/media/tv/s1/e1.mkv", isLink := true
                  linkTargetUnderSsd := true, isFile := false, hardlinkToHdd := false }]
    destExists := true, verifySD := true, replaceAllFail := false
    setLocationRaises := false, realSrc := ["data", "ssd", "t1"]
    realRoot := ["data", "ssd"], srcExists := true, deleteRaises := false
    torrentActive := false, resumeRaises := false }

/-! ## C3: link discovery at the failing input -/
/-- An import-script relocation world whose library holds exactly one legacy
hardlink to the bulk copy and no symlinks: `find_links_to_ssd_path` would
report it, but the run still returns `no_links`. -/
def hardlinkOnlyWorld : ImportWorld :=
  { streaming := false, rootFolders := ["/media/tv"]
    entries := [{ path := "/media/tv/s1/e1.mkv", isLink := false
                  linkTargetUnderSsd := false, isFile := true, hardlinkToHdd := true }]
    destExists := true, verifySD := true, replaceAllFail := false
    setLocationRaises := false, realSrc := ["data", "ssd", "t2"]
    realRoot := ["data", "ssd"], srcExists := true, deleteRaises := false
    torrentActive := false, resumeRaises := false }

/-! ## C7: the infohash boundary -/
def exceptOkB : Except ε α → Bool
  | .ok _ => true
  | .error _ => false

/-- Python values a JSON body field can hold, with CPython truthiness. -/
inductive PyVal where
  | vstr (s : List Char)
  | vint (n : Int)
  | vbool (b : Bool)
  | vnull
deriving Repr, DecidableEq

def pyTruthy : PyVal → Bool
  | .vstr s => !s.isEmpty
  | .vint n => n != 0
  | .vbool b => b
  | .vnull => false

/-- The parsed JSON body of `POST /notify/torrent-finished`.  `params`, when
present, is assumed well-formed (its parse errors are not this claim's
concern). -/
structure NotifyBody where
  hash : Option PyVal
  params : Option TorrentData
  priority : Int
deriving Repr, DecidableEq

/-- Embedding of `notify_torrent_finished` (service.py:599-633): `data.get('hash')`
falsy ⇒ 400 "Missing torrent hash"; `BTIH(torrent_hash)` raising
`ValueError`/`TypeError` ⇒ 400; then `add_to_queue`, whose
`RuntimeError` during shutdown becomes a 500.  Result is the HTTP status and
the new orchestrator state. -/
def notify_torrent_finished (maxP t : Nat) (body : NotifyBody) (s : OState) :
    Nat × OState :=
  let h := body.hash.getD .vnull
  if !pyTruthy h then (400, s)
  else
    match h with
    | .vstr cs =>
        match btihNew cs with
        | .error _ => (400, s)
        | .ok _ =>
            match addToQueue maxP t cs body.params body.priority s with
            | .ok (_, s') => (200, s')
            | .error _ => (500, s)
    | _ => (400, s)

def validHash40 : List Char := List.replicate 40 'a'

/-! ## C2: the `/tags/existing` endpoint

service.py:667 invokes
`tag_existing_torrents_by_location(client, dry_run=dry_run, async_copies=True)`
while the function defined at tags.py:82 has parameters `(client, dry_run)`.
Python's call protocol rejects a keyword argument that matches no parameter
with a `TypeError`, which the handler's `except Exception` turns into a 500
response. -/
/-- Parameter names of `tag_existing_torrents_by_location` (tags.py:82). -/
def tagExistingParams : List String := ["client", "dry_run"]

/-- Keyword arguments passed at the call site (service.py:667). -/
def tagExistingCallKwargs : List String := ["dry_run", "async_copies"]

/-- CPython rejects the call unless every keyword argument names a
parameter. -/
def pyCallAccepts (params kwargs : List String) : Bool :=
  kwargs.all (params.contains ·)

/-- Embedding of `tag_existing_endpoint` (service.py:659-697) on a well-formed,
authenticated request: `happyResponse` abstracts whatever the handler would
return if the call into tags.py succeeded; the `except Exception` arm
returns status 500. -/
def tag_existing_endpoint (happyResponse : Nat) (dryRun : Bool) : Nat :=
  if pyCallAccepts tagExistingParams tagExistingCallKwargs then happyResponse
  else 500

/-! ## C4: queue ordering -/
/-- Lexicographic byte comparison of ids, used only to state the claim's
"ties break on id". -/
def charListLe : List Char → List Char → Bool
  | [], _ => true
  | _ :: _, [] => false
  | a :: as, b :: bs =>
      if a.val < b.val then true
      else if b.val < a.val then false
      else charListLe as bs

def strLeB (a b : String) : Bool := charListLe a.data b.data

/-- The order the claim asserts: strictly by `(-priority, enqueue_time)` with
ties broken on id. -/
def claimLe (a b : QItem) : Bool :=
  keyLt a b || (a.priority == b.priority && a.queuedTime == b.queuedTime && strLeB a.id b.id)

def dummyTorrent : TorrentData :=
  { hashV1 := validHash40, name := "", contentPath := "", savePath := ""
    rootPath := "", size := 0, numFiles := 1, category := "", tags := ""
    currentTracker := "", hashV2 := none, torrentId := "" }

/-- Enqueued first, with id "b". -/
def tieFirst : QItem := { id := "b", torrent := dummyTorrent, queuedTime := 5, priority := 0 }

/-- Enqueued second, same priority and enqueue time, with smaller id "a". -/
def tieSecond : QItem := { id := "a", torrent := dummyTorrent, queuedTime := 5, priority := 0 }

/-- The inductive invariant of the orchestrator: both record maps are
bounded by their configured limits, and a non-empty queue implies the
corresponding map is full (the dispatch loops run to quiescence inside every
lock-holding operation). -/
def OInv (maxP maxC : Nat) (s : OState) : Prop :=
  s.runningProcesses.length ≤ maxP ∧
  s.runningCopyOperations.length ≤ maxC ∧
  (s.processQueue ≠ [] → maxP ≤ s.runningProcesses.length) ∧
  (s.copyQueue ≠ [] → maxC ≤ s.runningCopyOperations.length)

/-- The event sequence that starves the queue: with limit 3, enqueue four
torrents, then let the three dispatched workers complete. -/
def starveEvents : List Event :=
  [.notify 0 validHash40 none 0, .notify 0 validHash40 none 0,
   .notify 0 validHash40 none 0, .notify 0 validHash40 none 0,
   .complete 1 "1" (some true), .complete 2 "3" (some true),
   .complete 3 "5" (some true)]

/-! ## persistence.py: checkpoint save / load / restore -/
/-- Embedding of `PersistedQueueItem` (persistence.py:29-35). -/
structure PersistedQueueItem where
  id : String
  torrent_data : TorrentDictData
  queued_time : Nat
  priority : Int
deriving Repr, DecidableEq

/-- Embedding of `PersistedProcessInfo` (persistence.py:37-44); `result` carries the
success bit as in `PRec`. -/
structure PersistedProcessInfo where
  id : String
  torrent_hash : List Char
  start_time : Nat
  status : String
  result : Option Bool
deriving Repr, DecidableEq

/-- Embedding of `ServiceState` (persistence.py:46-53). -/
structure ServiceState where
  queue_items : List PersistedQueueItem
  running_processes : List PersistedProcessInfo
  statistics : Stats
  shutdown_time : Nat
  version : String
deriving Repr, DecidableEq

def statusStr : RStatus → String
  | .running => "running"
  | .completed => "completed"
  | .failed => "failed"

/-- Embedding of `save_orchestrator_state` (persistence.py:66-131): serialize the queue,
keep only the RUNNING records, snapshot the statistics, stamp the shutdown
time and version "1.0".  (The temp-file + `os.replace` write is atomic and
not modelled beyond producing this value.) -/
def save_orchestrator_state (s : OState) (now : Nat) : ServiceState :=
  { queue_items := s.processQueue.map (fun i =>
      { id := i.id, torrent_data := torrentToDict i.torrent
        queued_time := i.queuedTime, priority := i.priority })
    running_processes := (s.runningProcesses.filter (fun p => p.status == .running)).map
      (fun p => { id := p.id, torrent_hash := p.torrentHash
                  start_time := p.startTime, status := statusStr p.status
                  result := p.success })
    statistics := s.stats, shutdown_time := now, version := "1.0" }

/-- Embedding of `load_orchestrator_state` (persistence.py:133-188): `none` when no file,
the version is not "1.0", or the checkpoint is older than 24 hours
(`(now - shutdown_time)/3600 > 24` over reals is `now - shutdown_time >
86400`). -/
def load_orchestrator_state (file : Option ServiceState) (now : Nat) :
    Option ServiceState :=
  match file with
  | none => none
  | some st =>
      if st.version != "1.0" then none
      else if 86400 < now - st.shutdown_time then none
      else some st

/-- The queue-item loop of `restore_orchestrator_state`
(persistence.py:206-216); `TorrentInfo.from_dict` re-validates hashes and
can raise, which the surrounding `except` swallows — only the all-success
run is modelled. -/
def restoreItems : List PersistedQueueItem → Except String (List QItem)
  | [] => .ok []
  | p :: rest =>
      match torrentFromDict p.torrent_data with
      | .error e => .error e
      | .ok t =>
          match restoreItems rest with
          | .error e => .error e
          | .ok l =>
              .ok ({ id := p.id, torrent := t, queuedTime := p.queued_time
                     priority := p.priority } :: l)

/-- The interrupted-process loop of `restore_orchestrator_state`
(persistence.py:218-232): re-enqueued as `restored-{id}` with a hash-only
descriptor, fresh enqueue time and priority 10. -/
def restoreRunning (now : Nat) : List PersistedProcessInfo → Except String (List QItem)
  | [] => .ok []
  | p :: rest =>
      match fromHashOnly p.torrent_hash with
      | .error e => .error e
      | .ok t =>
          match restoreRunning now rest with
          | .error e => .error e
          | .ok l =>
              .ok ({ id := "restored-" ++ p.id, torrent := t, queuedTime := now
                     priority := 10 } :: l)

/-- Embedding of `restore_orchestrator_state` (persistence.py:190-247): append restored
queue items, then the re-enqueued interrupted processes, sort by
`(-priority, queued_time)`, and restore only the monotonic counters. -/
def restore_orchestrator_state (s : OState) (st : ServiceState) (now : Nat) :
    Except String OState :=
  match restoreItems st.queue_items with
  | .error e => .error e
  | .ok items =>
      match restoreRunning now st.running_processes with
      | .error e => .error e
      | .ok restored =>
          .ok { s with
                processQueue := pySort (s.processQueue ++ items ++ restored)
                stats := { s.stats with
                           torrentsProcessed := st.statistics.torrentsProcessed
                           spaceManagementRuns := st.statistics.spaceManagementRuns } }

/-- The round-trip property of the claim: loading the freshly saved
checkpoint succeeds and restoring it into a fresh orchestrator brings back
every pending queue item with its id, priority, enqueue time and descriptor,
and re-enqueues every previously-RUNNING record as a priority-10 item. -/
def CheckpointRoundtrip (s : OState) (now1 now2 : Nat) : Prop :=
  load_orchestrator_state (some (save_orchestrator_state s now1)) now2 =
      some (save_orchestrator_state s now1) ∧
  ∃ s', restore_orchestrator_state (initOState now2)
          (save_orchestrator_state s now1) now2 = .ok s' ∧
    (∀ i ∈ s.processQueue, ∃ j ∈ s'.processQueue,
        j.id = i.id ∧ j.priority = i.priority ∧ j.queuedTime = i.queuedTime ∧
        j.torrent = i.torrent) ∧
    (∀ r ∈ s.runningProcesses, r.status = .running →
        ∃ j ∈ s'.processQueue, j.id = "restored-" ++ r.id ∧ j.priority = 10)

/-- A concrete orchestrator state for the round-trip witness: one pending
item, one RUNNING record, one COMPLETED record. -/
def checkpointWitnessState : OState :=
  { runningProcesses :=
      [{ id := "p1", torrentHash := validHash40, startTime := 50
         status := .running, success := none },
       { id := "p2", torrentHash := validHash40, startTime := 40
         status := .completed, success := some true }]
    processQueue := [{ id := "q1", torrent := dummyTorrent, queuedTime := 60, priority := 0 }]
    runningCopyOperations := [], copyQueue := [], shutdownInProgress := false
    stats := initStats 0, nextId := 7 }

theorem mem_insertBy (lt : α → α → Bool) (x a : α) (l : List α) :
    a ∈ insertBy lt x l ↔ a = x ∨ a ∈ l := by
  induction l with
  | nil => simp [insertBy]
  | cons y ys ih =>
      simp only [insertBy]
      split
      · simp [ih]; tauto
      · simp

theorem mem_sortBy (lt : α → α → Bool) (a : α) (l : List α) :
    a ∈ sortBy lt l ↔ a ∈ l := by
  induction l with
  | nil => simp [sortBy]
  | cons x xs ih => simp [sortBy, mem_insertBy, ih]

theorem length_insertBy (lt : α → α → Bool) (x : α) (l : List α) :
    (insertBy lt x l).length = l.length + 1 := by
  induction l with
  | nil => rfl
  | cons y ys ih =>
      simp only [insertBy]
      split <;> simp [ih]

theorem length_sortBy (lt : α → α → Bool) (l : List α) :
    (sortBy lt l).length = l.length := by
  induction l with
  | nil => rfl
  | cons x xs ih => simp [sortBy, length_insertBy, ih]

theorem keyLt_false_le {a b : QItem} (h : keyLt a b = false) : keyLe b a = true := by
  simp only [keyLt, keyLe, Bool.or_eq_false_iff, Bool.or_eq_true, Bool.and_eq_false_iff,
    Bool.and_eq_true, decide_eq_false_iff_not, decide_eq_true_eq, beq_iff_eq,
    beq_eq_false_iff_ne, ne_eq] at *
  omega

theorem keyLt_true_le {a b : QItem} (h : keyLt a b = true) : keyLe a b = true := by
  simp only [keyLt, keyLe, Bool.or_eq_true, Bool.and_eq_true,
    decide_eq_true_eq, beq_iff_eq] at *
  omega

theorem keyLe_trans {a b c : QItem} (h1 : keyLe a b = true) (h2 : keyLe b c = true) :
    keyLe a c = true := by
  simp only [keyLe, Bool.or_eq_true, Bool.and_eq_true, decide_eq_true_eq, beq_iff_eq] at *
  omega

theorem pairwise_insertBy_keyLt (x : QItem) (l : List QItem)
    (h : l.Pairwise (fun a b => keyLe a b = true)) :
    (insertBy keyLt x l).Pairwise (fun a b => keyLe a b = true) := by
  induction l with
  | nil => simp [insertBy]
  | cons y ys ih =>
      rcases List.pairwise_cons.mp h with ⟨hy, hys⟩
      simp only [insertBy]
      split
      · rename_i hlt
        refine List.pairwise_cons.mpr ⟨?_, ih hys⟩
        intro z hz
        rcases (mem_insertBy keyLt x z ys).mp hz with rfl | hzys
        · exact keyLt_true_le hlt
        · exact hy z hzys
      · rename_i hnlt
        refine List.pairwise_cons.mpr ⟨?_, h⟩
        intro z hz
        have hxy : keyLe x y = true := keyLt_false_le (Bool.of_not_eq_true hnlt)
        rcases hz with _ | hzys
        · exact hxy
        · exact keyLe_trans hxy (hy z (by assumption))

theorem pairwise_pySort (l : List QItem) :
    (pySort l).Pairwise (fun a b => keyLe a b = true) := by
  induction l with
  | nil => exact List.Pairwise.nil
  | cons x xs ih => exact pairwise_insertBy_keyLt x (sortBy keyLt xs) ih

theorem filter_insertBy_sameKey (x : QItem) (l : List QItem) (p : Int) (t : Nat) :
    (insertBy keyLt x l).filter (sameKey p t) =
      if sameKey p t x then x :: l.filter (sameKey p t) else l.filter (sameKey p t) := by
  induction l with
  | nil => simp [insertBy, List.filter_cons]
  | cons y ys ih =>
      simp only [insertBy]
      split
      · rename_i hlt
        by_cases hx : sameKey p t x = true
        · have hy : sameKey p t y = false := by
            simp only [sameKey, keyLt, Bool.or_eq_true, Bool.and_eq_true,
              decide_eq_true_eq, beq_iff_eq, Bool.and_eq_false_iff,
              beq_eq_false_iff_ne, ne_eq] at hx hlt ⊢
            omega
          simp [List.filter_cons, hy, ih, hx]
        · have hx' : sameKey p t x = false := by simpa using hx
          simp [List.filter_cons, ih, hx']
      · by_cases hx : sameKey p t x = true
        · simp [List.filter_cons, hx]
        · have hx' : sameKey p t x = false := by simpa using hx
          simp [List.filter_cons, hx']

theorem filter_pySort_sameKey (l : List QItem) (p : Int) (t : Nat) :
    (pySort l).filter (sameKey p t) = l.filter (sameKey p t) := by
  induction l with
  | nil => rfl
  | cons x xs ih =>
      simp only [pySort, sortBy] at ih ⊢
      rw [filter_insertBy_sameKey]
      by_cases hx : sameKey p t x = true
      · simp [hx, List.filter_cons, ih]
      · have hx' : sameKey p t x = false := by simpa using hx
        simp [hx', List.filter_cons, ih]

theorem plain_eq_branches (w : PlainWorld) :
    relocate_and_delete_ssd w =
      plainBranches w.dryRun w.torrentFound w.pauseOrMoveRaises w.destExists
        w.copyRaises w.verifySD (pathWithin w.realSrc w.realRoot)
        w.srcExists w.deleteRaises w.torrentActive w.resumeRaises := rfl

theorem import_eq_branches (enabled : Bool) (w : ImportWorld) :
    relocate_and_delete_ssd_import_script_mode enabled w =
      importBranches enabled w.streaming w.rootFolders.isEmpty
        ((find_symlinks_to_ssd_path w.entries).length + ([] : List LibEntry).length == 0)
        w.destExists w.verifySD (find_symlinks_to_ssd_path w.entries).isEmpty
        w.replaceAllFail w.setLocationRaises (pathWithin w.realSrc w.realRoot)
        w.srcExists w.deleteRaises w.torrentActive w.resumeRaises := rfl

/-- Branch-exhaustive check: whenever the enabled stream-aware relocator does
not succeed, its reason is one of streaming, no_links, no_hdd_copy,
no_config or error (`disabled` and the legacy `no_symlinks` never occur). -/
theorem importBranches_reason_reachable :
    ∀ b1 b2 b3 b4 b5 b6 b7 b8 b9 b10 b11 b12 b13 : Bool,
      (importBranches true b1 b2 b3 b4 b5 b6 b7 b8 b9 b10 b11 b12 b13).ok = false →
      (importBranches true b1 b2 b3 b4 b5 b6 b7 b8 b9 b10 b11 b12 b13).reason ∈
        ([.streaming, .noLinks, .noHddCopy, .noConfig, .error] : List Reason) := by
  decide

/-- When import-script mode is enabled, the stream-aware relocator only
produces these reasons on non-success (never `disabled` or the legacy
`no_symlinks`). -/
theorem importReason_reachable (w : ImportWorld)
    (h : (relocate_and_delete_ssd_import_script_mode true w).ok = false) :
    (relocate_and_delete_ssd_import_script_mode true w).reason ∈
      ([.streaming, .noLinks, .noHddCopy, .noConfig, .error] : List Reason) := by
  rw [import_eq_branches] at h ⊢
  exact importBranches_reason_reachable _ _ _ _ _ _ _ _ _ _ _ _ _ h

/-- Branch-exhaustive check: on non-success, membership in the code's skip
list (core.py:540) is exactly "the reason is not `error`". -/
theorem importBranches_skip_iff :
    ∀ b1 b2 b3 b4 b5 b6 b7 b8 b9 b10 b11 b12 b13 : Bool,
      (importBranches true b1 b2 b3 b4 b5 b6 b7 b8 b9 b10 b11 b12 b13).ok = false →
      skipReasons.contains
          (importBranches true b1 b2 b3 b4 b5 b6 b7 b8 b9 b10 b11 b12 b13).reason =
        !((importBranches true b1 b2 b3 b4 b5 b6 b7 b8 b9 b10 b11 b12 b13).reason == .error) := by
  decide

/-! ## Branch-exhaustive facts about the delete guards -/
/-- Whenever the plain relocator issues the delete, the destination either
pre-existed or was copied and verified in this run, and the resolved source
lies within (possibly equal to) the cache root. -/
theorem plainBranches_deleted_guard :
    ∀ dryRun found pmRaises destEx copyRaises verifyOk within srcEx delRaises act res : Bool,
      (plainBranches dryRun found pmRaises destEx copyRaises verifyOk within
          srcEx delRaises act res).deleted = true →
        (destEx = true ∨ (copyRaises = false ∧ verifyOk = true)) ∧ within = true := by
  decide

/-- Whenever the stream-aware relocator issues the delete, the destination
existed, verified, and the resolved source lies within the cache root. -/
theorem importBranches_deleted_guard :
    ∀ enabled b1 b2 b3 destEx verifyOk b6 b7 b8 within b10 b11 b12 b13 : Bool,
      (importBranches enabled b1 b2 b3 destEx verifyOk b6 b7 b8 within
          b10 b11 b12 b13).deleted = true →
        destEx = true ∧ verifyOk = true ∧ within = true := by
  decide

/-- C1 counterexample: the plain relocator deletes the cache copy although
the pre-existing bulk destination was never verified against the source
(`verify_copy` would return false) and the resolved source path equals the
cache root, i.e. is not strictly inside it. -/
theorem plain_delete_unverified_at_root :
    (relocate_and_delete_ssd plainCounterWorld).deleted = true ∧
      plainCounterWorld.destExists = true ∧
      plainCounterWorld.verifySD = false ∧
      strictlyInside plainCounterWorld.realSrc plainCounterWorld.realRoot = false := by
  decide

/-- C1 (amended): in every relocation run, plain or stream-aware, the cache
copy is deleted only if immediately before the delete the bulk destination
existed (verified against the cache source whenever this run created it, and
always verified in the stream-aware variant) and the resolved real path of
the cache source lies within — possibly equal to — the configured
cache-root. -/
theorem relocation_delete_safety (wp : PlainWorld) (we : ImportWorld) (enabled : Bool) :
    ((relocate_and_delete_ssd wp).deleted = true →
        (wp.destExists = true ∨ (wp.copyRaises = false ∧ wp.verifySD = true)) ∧
        pathWithin wp.realSrc wp.realRoot = true) ∧
    ((relocate_and_delete_ssd_import_script_mode enabled we).deleted = true →
        we.destExists = true ∧ we.verifySD = true ∧
        pathWithin we.realSrc we.realRoot = true) := by
  constructor
  · rw [plain_eq_branches]
    exact plainBranches_deleted_guard _ _ _ _ _ _ _ _ _ _ _
  · rw [import_eq_branches]
    exact importBranches_deleted_guard _ _ _ _ _ _ _ _ _ _ _ _ _ _

/-- C1 witness: concrete runs of both relocators that delete, with the
amended guards holding. -/
theorem relocation_delete_safety_witness :
    ((relocate_and_delete_ssd plainOkWorld).deleted = true ∧
      (plainOkWorld.destExists = true ∨
        (plainOkWorld.copyRaises = false ∧ plainOkWorld.verifySD = true)) ∧
      pathWithin plainOkWorld.realSrc plainOkWorld.realRoot = true) ∧
    ((relocate_and_delete_ssd_import_script_mode true importOkWorld).deleted = true ∧
      importOkWorld.destExists = true ∧ importOkWorld.verifySD = true ∧
      pathWithin importOkWorld.realSrc importOkWorld.realRoot = true) :=
  ⟨⟨by decide, (relocation_delete_safety plainOkWorld importOkWorld true).1 (by decide)⟩,
   ⟨by decide, (relocation_delete_safety plainOkWorld importOkWorld true).2 (by decide)⟩⟩

/-- C3: evaluated at the failing input, `find_links_to_ssd_path` finds one
legacy hardlink and no symlinks (total 1 ≠ 0), yet the stream-aware run
returns `(false, "no_links")`, because its call site reads
`expected_hdd_path` before assignment (core.py:627 vs core.py:655) and the
resulting UnboundLocalError always diverts discovery to the symlink-only
fallback. -/
theorem streamAware_noLinks_despite_hardlink :
    (find_links_to_ssd_path hardlinkOnlyWorld.entries).1 = [] ∧
      (find_links_to_ssd_path hardlinkOnlyWorld.entries).2.length = 1 ∧
      relocate_and_delete_ssd_import_script_mode true hardlinkOnlyWorld =
        { ok := false, reason := .noLinks, deleted := false } := by
  decide

/-! ## C6: skip versus fallback in the reclamation pass -/
/-- C6: with import-script mode enabled, the relocation loop of
`manage_ssd_space` behaves exactly as specified: a skip-reason
(`streaming | no_links | no_hdd_copy | no_config`) moves on to the next
candidate without invoking the plain relocator, exactly reason `error` falls
back to the plain relocator, and a plain-relocator failure stops the whole
pass. -/
theorem manage_pass_skip_vs_fallback (need freed : Nat) (cs : List Candidate) :
    manage_ssd_space_loop true need freed cs = managePassSpec need freed cs := by
  induction cs generalizing freed with
  | nil => rfl
  | cons c rest ih =>
      simp only [manage_ssd_space_loop, managePassSpec, if_true]
      by_cases hnf : need ≤ freed
      · simp [hnf]
      · simp only [if_neg hnf]
        by_cases hok : (relocate_and_delete_ssd_import_script_mode true c.importW).ok = true
        · simp [hok, ih]
        · have hok' : (relocate_and_delete_ssd_import_script_mode true c.importW).ok = false :=
            Bool.eq_false_iff.mpr hok
          have hsk : skipReasons.contains
              (relocate_and_delete_ssd_import_script_mode true c.importW).reason =
              !((relocate_and_delete_ssd_import_script_mode true c.importW).reason == .error) := by
            rw [import_eq_branches] at hok' ⊢
            exact importBranches_skip_iff _ _ _ _ _ _ _ _ _ _ _ _ _ hok'
          cases hbe : (relocate_and_delete_ssd_import_script_mode true c.importW).reason == .error
          · rw [hbe] at hsk
            simp only [hok', hsk]
            simp [ih]
          · rw [hbe] at hsk
            simp only [hok', hsk]
            simp [hbe, ih]

/-! ## C9: verification laws of `verify_copy` -/
/-- C9: `verify_copy(x, x)` succeeds for every existing resolved path, with
either flag value; a successful single-file verification implies equal
`os.path.getsize`; and a successful tree verification implies equal
`get_dir_stats` total size and item count. -/
theorem verify_copy_laws :
    (∀ (x : FsNode) (isMulti : Bool), verify_copy (some x) (some x) isMulti = true) ∧
    (∀ x y : FsNode, verify_copy (some x) (some y) false = true → getsize x = getsize y) ∧
    (∀ x y : FsNode, verify_copy (some x) (some y) true = true →
        (get_dir_stats x).1 = (get_dir_stats y).1 ∧
        (get_dir_stats x).2 = (get_dir_stats y).2) := by
  refine ⟨?_, ?_, ?_⟩
  · intro x isMulti
    cases isMulti
    · simp [verify_copy]
    · cases x <;> (simp [verify_copy, get_dir_stats]; try omega)
  · intro x y h
    simp [verify_copy] at h
    exact h
  · intro x y h
    simp [verify_copy] at h
    rcases h with ⟨⟨hs, hc⟩, _⟩ | ⟨⟨h0, h0'⟩, hc⟩
    · exact ⟨hs, hc⟩
    · exact ⟨by omega, hc⟩

/-- C9 witness: concrete single-file and tree verifications. -/
theorem verify_copy_laws_witness :
    (verify_copy (some (FsNode.file 5)) (some (FsNode.file 5)) false = true ∧
      getsize (FsNode.file 5) = getsize (FsNode.file 5)) ∧
    (verify_copy (some (FsNode.dir 4096 [FsNode.file 3]))
        (some (FsNode.dir 512 [FsNode.file 3])) true = true ∧
      (get_dir_stats (FsNode.dir 4096 [FsNode.file 3])).1 =
        (get_dir_stats (FsNode.dir 512 [FsNode.file 3])).1 ∧
      (get_dir_stats (FsNode.dir 4096 [FsNode.file 3])).2 =
        (get_dir_stats (FsNode.dir 512 [FsNode.file 3])).2) :=
  ⟨⟨by decide, verify_copy_laws.2.1 (FsNode.file 5) (FsNode.file 5) (by decide)⟩,
   ⟨by simp [verify_copy, get_dir_stats, dirStatsChildren],
    verify_copy_laws.2.2 (FsNode.dir 4096 [FsNode.file 3])
      (FsNode.dir 512 [FsNode.file 3])
      (by simp [verify_copy, get_dir_stats, dirStatsChildren])⟩⟩

theorem btihNew_okB (s : List Char) : exceptOkB (btihNew s) = btihValid s := by
  unfold btihNew btihValid
  by_cases h32 : s.length = 32 <;> by_cases h40 : s.length = 40 <;>
    by_cases h64 : s.length = 64 <;> cases hx : allHex s <;>
    simp [h32, h40, h64, hx, exceptOkB]

theorem btihNew_of_valid {s : List Char} (h : btihValid s = true) : btihNew s = .ok s := by
  unfold btihValid at h
  simp only [Bool.and_eq_true, Bool.or_eq_true, decide_eq_true_eq] at h
  obtain ⟨hlen, hx⟩ := h
  unfold btihNew
  rcases hlen with (h | h) | h <;> simp [h, hx]

/-- C7: `BTIH.__new__` accepts exactly the strings of length 32, 40 or 64
made of `[0-9a-fA-F]`; and on the notification endpoint a request is
answered 200 only when its hash field is such a string, every other string
getting a 400. -/
theorem infohash_boundary :
    (∀ s : List Char, exceptOkB (btihNew s) = btihValid s) ∧
    (∀ (maxP t : Nat) (body : NotifyBody) (st : OState),
        (notify_torrent_finished maxP t body st).1 = 200 →
        ∃ cs, body.hash = some (.vstr cs) ∧ btihValid cs = true) ∧
    (∀ (maxP t : Nat) (body : NotifyBody) (st : OState) (cs : List Char),
        body.hash = some (.vstr cs) → btihValid cs = false →
        (notify_torrent_finished maxP t body st).1 = 400) := by
  refine ⟨btihNew_okB, ?_, ?_⟩
  · intro maxP t body st h200
    unfold notify_torrent_finished at h200
    cases hb : body.hash with
    | none => rw [hb] at h200; simp [Option.getD, pyTruthy] at h200
    | some v =>
        rw [hb] at h200
        cases v with
        | vstr cs =>
            refine ⟨cs, rfl, ?_⟩
            by_cases hv : btihValid cs = true
            · exact hv
            · exfalso
              have hv' : btihValid cs = false := Bool.eq_false_iff.mpr hv
              have hne : btihNew cs ≠ .ok cs := by
                intro he
                have : exceptOkB (btihNew cs) = true := by rw [he]; rfl
                rw [btihNew_okB, hv'] at this
                exact Bool.false_ne_true this
              cases htr : pyTruthy (PyVal.vstr cs) with
              | false => simp [Option.getD, htr] at h200
              | true =>
                  simp only [Option.getD, htr, Bool.not_true, if_false] at h200
                  cases hbn : btihNew cs with
                  | error e => rw [hbn] at h200; simp at h200
                  | ok cs' =>
                      have : exceptOkB (btihNew cs) = true := by rw [hbn]; rfl
                      rw [btihNew_okB, hv'] at this
                      exact Bool.false_ne_true this
        | vint n => simp [Option.getD, pyTruthy] at h200
        | vbool b =>
            cases b <;> simp [Option.getD, pyTruthy] at h200
        | vnull => simp [Option.getD, pyTruthy] at h200
  · intro maxP t body st cs hb hv
    unfold notify_torrent_finished
    rw [hb]
    cases htr : pyTruthy (PyVal.vstr cs) with
    | false => simp [Option.getD, htr]
    | true =>
        simp only [Option.getD, htr, Bool.not_true, if_false]
        cases hbn : btihNew cs with
        | error e => rfl
        | ok cs' =>
            exfalso
            have : exceptOkB (btihNew cs) = true := by rw [hbn]; rfl
            rw [btihNew_okB, hv] at this
            exact Bool.false_ne_true this

/-- C7 witness: the accepted-hash fact extracted from an actual 200
response, and a 400 response for an invalid string. -/
theorem infohash_boundary_witness :
    (exceptOkB (btihNew validHash40) = btihValid validHash40) ∧
    (∃ cs, ({ hash := some (.vstr validHash40), params := none, priority := 0 } :
        NotifyBody).hash = some (.vstr cs) ∧ btihValid cs = true) ∧
    (notify_torrent_finished 3 0
        { hash := some (.vstr ['z', 'z']), params := none, priority := 0 }
        (initOState 0)).1 = 400 :=
  ⟨infohash_boundary.1 validHash40,
   infohash_boundary.2.1 3 0
     { hash := some (.vstr validHash40), params := none, priority := 0 }
     (initOState 0) (by decide),
   infohash_boundary.2.2 3 0
     { hash := some (.vstr ['z', 'z']), params := none, priority := 0 }
     (initOState 0) ['z', 'z'] rfl (by decide)⟩

/-- C2 (code bug): every well-formed authenticated `POST /tags/existing`
request is answered 500, because the handler's call passes the keyword
argument `async_copies` that `tag_existing_torrents_by_location` does not
accept. -/
theorem tag_existing_always_500 (happyResponse : Nat) (dryRun : Bool) :
    tag_existing_endpoint happyResponse dryRun = 500 := by
  have h : pyCallAccepts tagExistingParams tagExistingCallKwargs = false := by decide
  simp [tag_existing_endpoint, h]

/-- C4 counterexample: the queue sort keeps two key-tied items in insertion
order ("b" before "a"), so the result is not ordered with ties broken on id:
the adjacent pair violates the claimed relation. -/
theorem queue_tie_not_broken_on_id :
    pySort [tieFirst, tieSecond] = [tieFirst, tieSecond] ∧
      claimLe tieFirst tieSecond = false := by
  decide

/-- C4 (amended): the queue sort orders items by `(-priority, enqueue_time)`
with ties keeping their insertion order (Python's sort is stable, not
id-tie-breaking); consequently any two positions of the sorted queue — two
consecutive pops without an intervening enqueue — carry lexicographically
nondecreasing keys, and a priority-10 restored item is placed before all
lower-priority fresh work. -/
theorem queue_order_stable_sorted (l : List QItem) :
    (pySort l).Pairwise (fun a b => keyLe a b = true) ∧
    (∀ p t, (pySort l).filter (sameKey p t) = l.filter (sameKey p t)) ∧
    (pySort l).Pairwise (fun a b => b.priority ≤ a.priority) := by
  refine ⟨pairwise_pySort l, fun p t => filter_pySort_sameKey l p t, ?_⟩
  refine (pairwise_pySort l).imp ?_
  intro a b hab
  simp only [keyLe, Bool.or_eq_true, Bool.and_eq_true, decide_eq_true_eq, beq_iff_eq] at hab
  omega

/-! ## C5: worker-pool bounds and dispatch -/
theorem dispatchLoop_length_le (maxP t : Nat) (q : List QItem) (r : List PRec) (n : Nat)
    (h : r.length ≤ maxP) : (dispatchLoop maxP t q r n).1.length ≤ maxP := by
  induction q generalizing r n with
  | nil => simpa [dispatchLoop] using h
  | cons i rest ih =>
      simp only [dispatchLoop]
      split
      · rename_i hlt
        exact ih _ _ (by simp; omega)
      · simpa using h

theorem dispatchLoop_quiescent (maxP t : Nat) (q : List QItem) (r : List PRec) (n : Nat) :
    (dispatchLoop maxP t q r n).2.1 ≠ [] → maxP ≤ (dispatchLoop maxP t q r n).1.length := by
  induction q generalizing r n with
  | nil => intro h; simp [dispatchLoop] at h
  | cons i rest ih =>
      simp only [dispatchLoop]
      split
      · exact ih _ _
      · rename_i hge
        intro _
        show maxP ≤ r.length
        omega

theorem dispatchCopyLoop_length_le (maxC t : Nat) (q : List CItem) (r : List CRec)
    (h : r.length ≤ maxC) : (dispatchCopyLoop maxC t q r).1.length ≤ maxC := by
  induction q generalizing r with
  | nil => simpa [dispatchCopyLoop] using h
  | cons i rest ih =>
      simp only [dispatchCopyLoop]
      split
      · rename_i hlt
        exact ih _ (by simp; omega)
      · simpa using h

theorem dispatchCopyLoop_quiescent (maxC t : Nat) (q : List CItem) (r : List CRec) :
    (dispatchCopyLoop maxC t q r).2 ≠ [] → maxC ≤ (dispatchCopyLoop maxC t q r).1.length := by
  induction q generalizing r with
  | nil => intro h; simp [dispatchCopyLoop] at h
  | cons i rest ih =>
      simp only [dispatchCopyLoop]
      split
      · exact ih _
      · rename_i hge
        intro _
        show maxC ≤ r.length
        omega

theorem trimProcesses_length_le (recs : List PRec) :
    (trimProcesses recs).length ≤ recs.length := by
  unfold trimProcesses trimProcesses.trimWith
  split
  · exact List.length_filter_le _ _
  · exact Nat.le_refl _

theorem trimCopies_length_le (recs : List CRec) :
    (trimCopies recs).length ≤ recs.length := by
  unfold trimCopies trimCopies.trimCWith
  split
  · exact List.length_filter_le _ _
  · exact Nat.le_refl _

theorem applyEvent_inv (maxP maxC : Nat) (e : Event) (s : OState)
    (h : OInv maxP maxC s) : OInv maxP maxC (applyEvent maxP maxC s e) := by
  obtain ⟨h1, h2, h3, h4⟩ := h
  cases e with
  | notify t hash params prio =>
      simp only [applyEvent]
      cases hsd : s.shutdownInProgress with
      | true =>
          simp only [addToQueue, hsd, if_true]
          exact ⟨h1, h2, h3, h4⟩
      | false =>
          cases hp : (match params with
                      | some p => Except.ok p
                      | none => fromHashOnly hash : Except String TorrentData) with
          | error e =>
              simp only [addToQueue, hsd, Bool.false_eq_true, if_false, hp]
              exact ⟨h1, h2, h3, h4⟩
          | ok torrent =>
              simp only [addToQueue, hsd, Bool.false_eq_true, if_false, hp]
              exact ⟨dispatchLoop_length_le _ _ _ _ _ h1, h2,
                     dispatchLoop_quiescent _ _ _ _ _, h4⟩
  | complete t pid result =>
      simp only [applyEvent, onProcessComplete]
      split
      · exact ⟨h1, h2, h3, h4⟩
      · refine ⟨dispatchLoop_length_le _ _ _ _ _ ?_, h2,
               dispatchLoop_quiescent _ _ _ _ _, h4⟩
        calc (trimProcesses _).length ≤ _ := trimProcesses_length_le _
          _ ≤ maxP := by simpa using h1
  | addCopies t count =>
      simp only [applyEvent]
      cases hsd : s.shutdownInProgress with
      | true =>
          simp only [addCopyOperations, hsd, if_true]
          exact ⟨h1, h2, h3, h4⟩
      | false =>
          simp only [addCopyOperations, hsd, Bool.false_eq_true, if_false]
          exact ⟨h1, dispatchCopyLoop_length_le _ _ _ _ h2, h3,
                 dispatchCopyLoop_quiescent _ _ _ _⟩
  | copyComplete t cid result =>
      simp only [applyEvent, onCopyComplete]
      split
      · exact ⟨h1, h2, h3, h4⟩
      · refine ⟨h1, dispatchCopyLoop_length_le _ _ _ _ ?_, h3,
               dispatchCopyLoop_quiescent _ _ _ _⟩
        calc (trimCopies _).length ≤ _ := trimCopies_length_le _
          _ ≤ maxC := by simpa using h2
  | clear =>
      exact ⟨h1, h2, by intro hc; exact absurd rfl hc, h4⟩
  | shutdown =>
      exact ⟨h1, h2, h3, h4⟩

theorem foldl_applyEvent_inv (maxP maxC : Nat) :
    ∀ (evs : List Event) (s : OState), OInv maxP maxC s →
      OInv maxP maxC (evs.foldl (applyEvent maxP maxC) s)
  | [], _, h => h
  | e :: evs, s, h =>
      foldl_applyEvent_inv maxP maxC evs _ (applyEvent_inv maxP maxC e s h)

/-- C5 (amended): in every reachable orchestrator state, the
`running_processes` and `running_copy_operations` record maps are bounded by
the configured limits — hence so are the counts of records actually in
RUNNING state — and whenever a queue is non-empty its record map is full:
dispatch is gated on the total number of retained records (running plus
kept completed/failed), not on the RUNNING count alone. -/
theorem orchestrator_bounds (maxP maxC : Nat) (evs : List Event) :
    (runEvents maxP maxC evs).runningProcesses.length ≤ maxP ∧
    runningCount (runEvents maxP maxC evs) ≤ maxP ∧
    (runEvents maxP maxC evs).runningCopyOperations.length ≤ maxC ∧
    runningCopyCount (runEvents maxP maxC evs) ≤ maxC ∧
    ((runEvents maxP maxC evs).processQueue ≠ [] →
      maxP ≤ (runEvents maxP maxC evs).runningProcesses.length) ∧
    ((runEvents maxP maxC evs).copyQueue ≠ [] →
      maxC ≤ (runEvents maxP maxC evs).runningCopyOperations.length) := by
  have h := foldl_applyEvent_inv maxP maxC evs (initOState 0)
    ⟨Nat.zero_le _, Nat.zero_le _, by intro hc; exact absurd rfl hc,
     by intro hc; exact absurd rfl hc⟩
  obtain ⟨h1, h2, h3, h4⟩ := h
  refine ⟨h1, ?_, h2, ?_, h3, h4⟩
  · exact le_trans (List.length_filter_le _ _) h1
  · exact le_trans (List.length_filter_le _ _) h2

/-- C5 counterexample: a reachable state in which zero records are RUNNING —
strictly below `max_concurrent_processes = 3` — yet the queued head item is
never dispatched, because the three retained COMPLETED records still fill
the `running_processes` map that gates `_process_queue`. -/
theorem orchestrator_starvation :
    runningCount (runEvents 3 1 starveEvents) = 0 ∧
    (runEvents 3 1 starveEvents).processQueue.length = 1 := by
  decide

/-- C5 witness: the quiescence half applied at a state with a non-empty
queue. -/
theorem orchestrator_bounds_witness :
    (runEvents 3 1 starveEvents).processQueue ≠ [] ∧
    3 ≤ (runEvents 3 1 starveEvents).runningProcesses.length :=
  ⟨by decide, (orchestrator_bounds 3 1 starveEvents).2.2.2.2.1 (by decide)⟩

/-! ## C10: the frame of `/queue/clear` -/
/-- C10 counterexample: an authenticated `POST /queue/clear` does change a
statistics counter — the auth middleware increments `api_requests` before
the handler runs. -/
theorem clear_queue_changes_api_requests :
    (clearQueueRequest true (initOState 0)).state.stats.apiRequests ≠
      (initOState 0).stats.apiRequests := by
  decide

/-- C10 (amended): an authenticated `POST /queue/clear` removes exactly the
pending torrent-queue items and returns their count; the running process
records, copy queue, running copy operations, shutdown flag, id counter, and
every statistics counter other than `api_requests` (which the auth
middleware increments on every authenticated request) are unchanged. -/
theorem clear_queue_frame (s : OState) :
    (clearQueueRequest true s).status = 200 ∧
    (clearQueueRequest true s).clearedCount = some s.processQueue.length ∧
    (clearQueueRequest true s).state.processQueue = [] ∧
    (clearQueueRequest true s).state.runningProcesses = s.runningProcesses ∧
    (clearQueueRequest true s).state.runningCopyOperations = s.runningCopyOperations ∧
    (clearQueueRequest true s).state.copyQueue = s.copyQueue ∧
    (clearQueueRequest true s).state.shutdownInProgress = s.shutdownInProgress ∧
    (clearQueueRequest true s).state.nextId = s.nextId ∧
    (clearQueueRequest true s).state.stats =
      { s.stats with apiRequests := s.stats.apiRequests + 1 } :=
  ⟨rfl, rfl, rfl, rfl, rfl, rfl, rfl, rfl, rfl⟩

theorem btihValid_ne_nil {s : List Char} (h : btihValid s = true) : s ≠ [] := by
  intro hnil
  rw [hnil] at h
  exact absurd h (by decide)

theorem fromHashOnly_of_valid {h : List Char} (hv : btihValid h = true) :
    fromHashOnly h = .ok (hashOnlyTorrent h) := by
  unfold fromHashOnly
  rw [btihNew_of_valid hv]

theorem torrentFromDict_toDict (t : TorrentData)
    (h1 : btihValid t.hashV1 = true) (h2 : t.hashV2.all btihValid = true) :
    torrentFromDict (torrentToDict t) = .ok t := by
  cases ht2 : t.hashV2 with
  | none =>
      simp only [torrentFromDict, torrentToDict, btihNew_of_valid h1, ht2]
      rw [← ht2]
  | some h =>
      rw [ht2] at h2
      simp only [Option.all_some] at h2
      have hne : h ≠ [] := btihValid_ne_nil h2
      simp only [torrentFromDict, torrentToDict, btihNew_of_valid h1, ht2,
        if_neg hne, btihNew_of_valid h2]
      rw [← ht2]

theorem restoreItems_save (l : List QItem)
    (hv : ∀ i ∈ l, btihValid i.torrent.hashV1 = true ∧
        i.torrent.hashV2.all btihValid = true) :
    restoreItems (l.map (fun i =>
        ({ id := i.id, torrent_data := torrentToDict i.torrent
           queued_time := i.queuedTime, priority := i.priority } :
          PersistedQueueItem))) = .ok l := by
  induction l with
  | nil => rfl
  | cons i rest ih =>
      obtain ⟨h1, h2⟩ := hv i (List.mem_cons_self i rest)
      have hrest := ih (fun j hj => hv j (List.mem_cons_of_mem _ hj))
      simp only [List.map_cons, restoreItems, torrentFromDict_toDict i.torrent h1 h2, hrest]

theorem restoreRunning_save (now : Nat) (l : List PRec)
    (hv : ∀ r ∈ l, btihValid r.torrentHash = true) :
    restoreRunning now (l.map (fun p =>
        ({ id := p.id, torrent_hash := p.torrentHash, start_time := p.startTime
           status := statusStr p.status, result := p.success } :
          PersistedProcessInfo))) =
      .ok (l.map (fun p =>
        ({ id := "restored-" ++ p.id, torrent := hashOnlyTorrent p.torrentHash
           queuedTime := now, priority := 10 } : QItem))) := by
  induction l with
  | nil => rfl
  | cons p rest ih =>
      have h1 := hv p (List.mem_cons_self p rest)
      have hrest := ih (fun r hr => hv r (List.mem_cons_of_mem _ hr))
      simp only [List.map_cons, restoreRunning, fromHashOnly_of_valid h1, hrest]

/-- C8: the checkpoint round-trip holds for every orchestrator state whose
hashes were validated at the boundary, when the restart happens within the
24-hour staleness window. -/
theorem checkpoint_roundtrip (s : OState) (now1 now2 : Nat)
    (hage : now2 - now1 ≤ 86400)
    (hq : ∀ i ∈ s.processQueue, btihValid i.torrent.hashV1 = true ∧
        i.torrent.hashV2.all btihValid = true)
    (hr : ∀ r ∈ s.runningProcesses, btihValid r.torrentHash = true) :
    CheckpointRoundtrip s now1 now2 := by
  constructor
  · simp only [load_orchestrator_state, save_orchestrator_state]
    rw [if_neg (by simp), if_neg (by omega)]
  · have hitems := restoreItems_save s.processQueue hq
    have hrun := restoreRunning_save now2
      (s.runningProcesses.filter (fun p => p.status == .running))
      (fun r hr' => hr r (List.mem_of_mem_filter hr'))
    have hrestore : restore_orchestrator_state (initOState now2)
        (save_orchestrator_state s now1) now2 =
        .ok { initOState now2 with
              processQueue := pySort ((initOState now2).processQueue ++ s.processQueue ++
                (s.runningProcesses.filter (fun p => p.status == .running)).map
                  (fun p => { id := "restored-" ++ p.id
                              torrent := hashOnlyTorrent p.torrentHash
                              queuedTime := now2, priority := 10 }))
              stats := { (initOState now2).stats with
                         torrentsProcessed := s.stats.torrentsProcessed
                         spaceManagementRuns := s.stats.spaceManagementRuns } } := by
      simp only [restore_orchestrator_state, save_orchestrator_state, hitems, hrun]
    refine ⟨_, hrestore, ?_, ?_⟩
    · intro i hi
      refine ⟨i, ?_, rfl, rfl, rfl, rfl⟩
      refine (mem_sortBy keyLt i _).mpr ?_
      simp only [List.mem_append]
      exact Or.inl (Or.inr hi)
    · intro r hrmem hrst
      refine ⟨{ id := "restored-" ++ r.id, torrent := hashOnlyTorrent r.torrentHash
                queuedTime := now2, priority := 10 }, ?_, rfl, rfl⟩
      refine (mem_sortBy keyLt _ _).mpr ?_
      simp only [List.mem_append]
      refine Or.inr (List.mem_map_of_mem _ ?_)
      rw [List.mem_filter]
      exact ⟨hrmem, by simp [hrst]⟩

/-- C8 witness: the round-trip at a concrete state, saved at t=100 and
restored at t=200. -/
theorem checkpoint_roundtrip_witness :
    (200 - 100 ≤ 86400) ∧ CheckpointRoundtrip checkpointWitnessState 100 200 :=
  ⟨by decide,
   checkpoint_roundtrip checkpointWitnessState 100 200 (by decide) (by decide) (by decide)⟩

end QbitManager
